import Mathlib

/-!
Shallow embedding of the admission-and-accounting pipeline of the Astrv
web app (apps/web/src/app/api/analyze/route.ts and the libraries it uses:
the rate limiter, the subscription checker, the Gemini client), together
with theorems checking the natural-language specification against it.

Conventions:

* JavaScript strings are Lean `String`; the regex `\s` is modelled by
  `isJsWs`; `String.prototype.trim` is modelled by `jsTrim`.
* Timestamps (`Date.now()`) are `Nat` milliseconds.
* JavaScript numbers holding counters are `Nat` where the code only ever
  stores positive counts, and `Int` where subtraction can go negative
  (the `remaining` field, the `limit` argument).
* Supabase tables are modelled per query shape; `maybeSingle()` is
  modelled by `maybeSingle`, which errors on more than one matching row.
* Every store round-trip that can fail in the code carries an explicit
  fault flag; a thrown exception and a returned error object reach the
  same handling code in the source, so one flag per operation suffices.
-/

/-- Model of the character class matched by the JavaScript regex `\s`
(restricted to the ASCII whitespace the repository can produce). -/
def isJsWs (c : Char) : Bool :=
  c = ' ' || c = '\t' || c = '\n' || c = '\r' || c = '\x0b' || c = '\x0c'

/-- Drop leading and trailing `\s` characters from a character list:
the model of `String.prototype.trim` on `List Char`. -/
def jsTrimList (l : List Char) : List Char :=
  ((l.dropWhile isJsWs).reverse.dropWhile isJsWs).reverse

/-- Model of `String.prototype.trim`. -/
def jsTrim (s : String) : String :=
  String.mk (jsTrimList s.data)

/-- Replace every maximal run of `\s` characters by a single space:
the model of `value.replace(/\s+/g, " ")` on `List Char`. The boolean
records whether the previous character was part of a whitespace run. -/
def collapseWsAux : List Char → Bool → List Char
  | [], _ => []
  | c :: rest, prevWs =>
    if isJsWs c then
      if prevWs then collapseWsAux rest true
      else ' ' :: collapseWsAux rest true
    else c :: collapseWsAux rest false

/-- Model of `value.replace(/\s+/g, " ")`. -/
def collapseWs (s : String) : String :=
  String.mk (collapseWsAux s.data false)

/-- Model of `sanitizeText` in route.ts: collapse whitespace runs to a
single space, then trim. -/
def sanitizeText (value : String) : String :=
  jsTrim (collapseWs value)

/-! ## Rate limiter (apps/web/src/lib/rateLimiter.ts) -/

/-- WINDOW_MS constant of the rate limiter. -/
def WINDOW_MS : Nat := 60000

/-- DEFAULT_LIMIT constant of the rate limiter. -/
def DEFAULT_LIMIT : Int := 30

/-- One entry of the process-local fallback map (`InMemoryBucket`). -/
structure InMemoryBucket where
  count : Nat
  resetAt : Nat
deriving Repr, DecidableEq

/-- The decision returned by the rate limiter. -/
structure RateLimitDecision where
  allowed : Bool
  remaining : Int
  resetAt : Nat
deriving Repr, DecidableEq

/-- The process-local `inMemoryBuckets` map, keyed by bucket key. -/
def MemBuckets : Type := String → Option InMemoryBucket

/-- The map with no buckets (fresh process). -/
def emptyBuckets : MemBuckets := fun _ => none

/-- Model of `getBucketKey`. -/
def getBucketKey (userId : String) : String := "analyze:" ++ userId

/-- Functional update of the in-memory bucket map
(`inMemoryBuckets.set(key, bucket)`). -/
def setBucket (m : MemBuckets) (k : String) (b : InMemoryBucket) : MemBuckets :=
  fun k2 => if k2 = k then some b else m k2

/-- Model of `checkInMemoryLimit`: the process-local fallback path.
Returns the decision together with the updated bucket map (the source
mutates the module-level map in place). -/
def checkInMemoryLimit (buckets : MemBuckets) (userId : String) (limit : Int)
    (now : Nat) : RateLimitDecision × MemBuckets :=
  let key := getBucketKey userId
  match buckets key with
  | none =>
    let resetAt := now + WINDOW_MS
    (⟨true, limit - 1, resetAt⟩, setBucket buckets key ⟨1, resetAt⟩)
  | some existing =>
    if existing.resetAt ≤ now then
      let resetAt := now + WINDOW_MS
      (⟨true, limit - 1, resetAt⟩, setBucket buckets key ⟨1, resetAt⟩)
    else if limit ≤ (existing.count : Int) then
      (⟨false, 0, existing.resetAt⟩, buckets)
    else
      (⟨true, limit - (existing.count + 1), existing.resetAt⟩,
        setBucket buckets key ⟨existing.count + 1, existing.resetAt⟩)

/-- The persistent `rate_limits` table plus fault flags for the three
store round-trips of `rateLimitUser`. `rows` maps a `(user_id,
window_start)` pair to the stored `count`; the unique key of the table
makes a function model exact. A flag set means that round-trip returns
an error (or throws; both reach the same fallback in the source). -/
structure RateClient where
  rows : String → Nat → Option Nat
  selectFails : Bool
  insertFails : Bool
  updateFails : Bool

/-- Functional update of the `rate_limits` table. -/
def setRow (rows : String → Nat → Option Nat) (u : String) (w : Nat) (c : Nat) :
    String → Nat → Option Nat :=
  fun u2 w2 => if u2 = u ∧ w2 = w then some c else rows u2 w2

/-- Model of `rateLimitUser`. A `none` client is the `!client` early
fallback. Returns the decision, the updated client (store), and the
updated in-memory bucket map. -/
def rateLimitUser (client : Option RateClient) (userId : String) (limit : Int)
    (now : Nat) (buckets : MemBuckets) :
    RateLimitDecision × Option RateClient × MemBuckets :=
  match client with
  | none =>
    let r := checkInMemoryLimit buckets userId limit now
    (r.1, none, r.2)
  | some c =>
    let windowStart := now / WINDOW_MS * WINDOW_MS
    if c.selectFails then
      let r := checkInMemoryLimit buckets userId limit now
      (r.1, some c, r.2)
    else
      match c.rows userId windowStart with
      | none =>
        if c.insertFails then
          let r := checkInMemoryLimit buckets userId limit now
          (r.1, some c, r.2)
        else
          (⟨true, limit - 1, windowStart + WINDOW_MS⟩,
            some { c with rows := setRow c.rows userId windowStart 1 }, buckets)
      | some count =>
        if limit ≤ (count : Int) then
          (⟨false, 0, windowStart + WINDOW_MS⟩, some c, buckets)
        else if c.updateFails then
          let r := checkInMemoryLimit buckets userId limit now
          (r.1, some c, r.2)
        else
          (⟨true, limit - (count + 1), windowStart + WINDOW_MS⟩,
            some { c with rows := setRow c.rows userId windowStart (count + 1) },
            buckets)

/-- A fresh store client: empty `rate_limits` table, no faults. -/
def freshClient : RateClient :=
  { rows := fun _ _ => none
    selectFails := false
    insertFails := false
    updateFails := false }

/-- Run a sequence of rate-limiter calls for one subject, threading the
store and the in-memory map, and collect the decisions. -/
def runCalls (client : Option RateClient) (u : String) (limit : Int)
    (b : MemBuckets) : List Nat → List RateLimitDecision
  | [] => []
  | t :: ts =>
    (rateLimitUser client u limit t b).1 ::
      runCalls (rateLimitUser client u limit t b).2.1 u limit
        (rateLimitUser client u limit t b).2.2 ts

/-! ## Entitlement resolution
(apps/web/src/lib/subscriptionChecker.ts and the `authenticateRequest`
function of apps/web/src/app/api/analyze/route.ts) -/

/-- Model of PostgREST `maybeSingle()`: `ok none` when no row matches,
`ok (some r)` for exactly one row, an error object for more than one. -/
def maybeSingle {α : Type} : List α → Except Unit (Option α)
  | [] => .ok none
  | [a] => .ok (some a)
  | _ :: _ :: _ => .error ()

/-- Row of `team_members` as selected by the subscription checker
(the TeamMember type of lib/types.ts, without the timestamp). -/
structure TeamMember where
  id : String
  team_id : String
  user_id : String
  role : String
  seat_active : Bool
deriving Repr, DecidableEq

/-- Row of `teams` (the Team type of lib/types.ts, without the
timestamp). -/
structure Team where
  id : String
  name : String
  owner_user_id : String
deriving Repr, DecidableEq

/-- Row of `subscriptions` restricted to the fields the checked code
reads (the Subscription type of lib/types.ts). -/
structure Subscription where
  id : String
  team_id : String
  status : String
  seats_allowed : Int
deriving Repr, DecidableEq

/-- The record store as seen by `ensureSubscriptionAndSeat`. -/
structure Db where
  team_members : List TeamMember
  teams : List Team
  subscriptions : List Subscription

/-- The SubscriptionCheckResult of subscriptionChecker.ts. -/
structure SubscriptionCheckResult where
  team : Team
  teamMember : TeamMember
  subscription : Subscription
  seatsUsed : Nat
deriving Repr, DecidableEq

/-- Lookup of a team row by id: both the embedded `teams(...)` join of
TEAM_MEMBER_SELECT and the explicit refetch run this same query, so one
definition serves both branches of the source. -/
def findTeamById (db : Db) (teamId : String) : Option Team :=
  db.teams.find? (fun t => t.id == teamId)

/-- Model of `ensureSubscriptionAndSeat`: active-seat membership lookup,
team resolution, subscription lookup with status "active" only, then the
active-seat count against `seats_allowed`. Thrown `Error` messages become
`Except.error` values carrying the same message strings. -/
def ensureSubscriptionAndSeat (db : Db) (userId : String) :
    Except String SubscriptionCheckResult :=
  match maybeSingle (db.team_members.filter
      (fun r => r.user_id == userId && r.seat_active)) with
  | .error _ => .error "team_lookup_failed"
  | .ok none => .error "team_membership_missing"
  | .ok (some teamMember) =>
    match findTeamById db teamMember.team_id with
    | none => .error "team_missing"
    | some team =>
      match maybeSingle (db.subscriptions.filter
          (fun s => s.team_id == team.id && s.status == "active")) with
      | .error _ => .error "subscription_inactive"
      | .ok none => .error "subscription_inactive"
      | .ok (some subscription) =>
        let activeSeats := (db.team_members.filter
          (fun r => r.team_id == team.id && r.seat_active)).length
        if subscription.seats_allowed ≤ (activeSeats : Int) then
          .error "seat_limit_reached"
        else
          .ok ⟨team, teamMember, subscription, activeSeats⟩

/-- Row of `team_members` as queried by the analyze route's
`authenticateRequest` (the parallel schema: `status` column with an
`is_active` fallback column). -/
structure TeamMemberAlt where
  team_id : String
  user_id : String
  status : String
  is_active : Bool
deriving Repr, DecidableEq

/-- Row of the `seats` table as queried by `authenticateRequest`. -/
structure Seat where
  id : String
  team_id : String
  user_id : String
  status : String
  is_active : Bool
deriving Repr, DecidableEq

/-- The record store as seen by `authenticateRequest`, together with the
identity store (`auth.getUser`, token to verified user id). -/
structure AuthDb where
  getUser : String → Option String
  team_members : List TeamMemberAlt
  seats : List Seat
  subscriptions : List Subscription

/-- The AuthContext of route.ts. -/
structure AuthContext where
  userId : String
  teamId : String
deriving Repr, DecidableEq

/-- Model of `authenticateRequest` in route.ts: verify the token, find
the team membership (with `is_active` fallback; the fallback query's
error is ignored in the source, leaving teamId undefined), require a
subscription with status in {active, trialing}, then require a seat
(again with an `is_active` fallback whose error is ignored). An empty
`team_id` string is falsy in the source and treated like a missing one. -/
def authenticateRequest (db : AuthDb) (token : String) :
    Except String AuthContext :=
  match db.getUser token with
  | none => .error "unauthorized"
  | some userId =>
    match maybeSingle (db.team_members.filter
        (fun r => r.user_id == userId && r.status == "active")) with
    | .error _ => .error "forbidden"
    | .ok firstMember =>
      let teamIdPrimary : Option String :=
        match firstMember with
        | some tm => if tm.team_id == "" then none else some tm.team_id
        | none => none
      let teamIdFound : Option String :=
        match teamIdPrimary with
        | some t => some t
        | none =>
          match maybeSingle (db.team_members.filter
              (fun r => r.user_id == userId && r.is_active)) with
          | .ok (some tm) => if tm.team_id == "" then none else some tm.team_id
          | _ => none
      match teamIdFound with
      | none => .error "forbidden"
      | some teamId =>
        match maybeSingle (db.subscriptions.filter
            (fun s => s.team_id == teamId &&
              (s.status == "active" || s.status == "trialing"))) with
        | .error _ => .error "forbidden"
        | .ok none => .error "forbidden"
        | .ok (some _) =>
          match maybeSingle (db.seats.filter
              (fun s => s.team_id == teamId && s.user_id == userId &&
                s.status == "active")) with
          | .error _ => .error "forbidden"
          | .ok (some _) => .ok ⟨userId, teamId⟩
          | .ok none =>
            match maybeSingle (db.seats.filter
                (fun s => s.team_id == teamId && s.user_id == userId &&
                  s.is_active)) with
            | .ok (some _) => .ok ⟨userId, teamId⟩
            | _ => .error "forbidden"

/-- A team with a trialing subscription and a free seat, for the C1
counterexample. -/
def trialDb : Db :=
  { team_members := [⟨"m1", "t1", "u1", "admin", true⟩]
    teams := [⟨"t1", "Team One", "u1"⟩]
    subscriptions := [⟨"s1", "t1", "trialing", 5⟩] }

/-- The analyze route's store with the same trialing subscription, for
the C1 witness. -/
def trialAuthDb : AuthDb :=
  { getUser := fun t => if t = "tok" then some "u1" else none
    team_members := [⟨"t1", "u1", "active", true⟩]
    seats := [⟨"st1", "t1", "u1", "active", true⟩]
    subscriptions := [⟨"s1", "t1", "trialing", 5⟩] }

/-- A team with an active subscription for 1 seat and exactly 1 active
membership, and the same team with 2 allowed seats. -/
def fullDb : Db :=
  { team_members := [⟨"m1", "t1", "u1", "admin", true⟩]
    teams := [⟨"t1", "Team One", "u1"⟩]
    subscriptions := [⟨"s1", "t1", "active", 1⟩] }

/-! ## Usage accounting (logUsage in route.ts) -/

/-- Row of the `usage_metrics` table exactly as the code writes it: the
insert supplies usage_date, user_id, team_id and tokens, and the update
only rewrites tokens; no other column is ever written. The tokens column
is an Option because the code guards the read with `data.tokens ?? 0`. -/
structure UsageRow where
  usage_date : String
  user_id : String
  team_id : String
  tokens : Option Int
deriving Repr, DecidableEq

/-- The `usage_metrics` table plus fault flags for the three store
round-trips of `logUsage`. -/
structure UsageDb where
  rows : List UsageRow
  selectFails : Bool
  insertFails : Bool
  updateFails : Bool
deriving Repr, DecidableEq

/-- The row predicate of logUsage's select and update queries:
`.eq("usage_date", d).eq("user_id", u).eq("team_id", t)`. -/
def usageMatches (usageDate userId teamId : String) (r : UsageRow) : Bool :=
  r.usage_date == usageDate && r.user_id == userId && r.team_id == teamId

/-- Model of `logUsage`. Total by construction: the source swallows every
store failure (`if (error) return`, the ignored insert error, the
enclosing try/catch), so each fault leaves the store unchanged and the
caller always gets control back normally. `tokens = none` models the
undefined token count and, like 0, is falsy in `if (!tokens) return`. -/
def logUsage (db : UsageDb) (userId teamId : String) (tokens : Option Nat)
    (usageDate : String) : UsageDb :=
  match tokens with
  | none => db
  | some t =>
    if t = 0 then db
    else if db.selectFails then db
    else
      match maybeSingle (db.rows.filter (usageMatches usageDate userId teamId)) with
      | .error _ => db
      | .ok none =>
        if db.insertFails then db
        else { db with rows := db.rows ++ [⟨usageDate, userId, teamId, some t⟩] }
      | .ok (some data) =>
        if db.updateFails then db
        else { db with rows := db.rows.map (fun r =>
          if usageMatches usageDate userId teamId r then
            { r with tokens := some (data.tokens.getD 0 + t) }
          else r) }

/-- The empty `usage_metrics` store with no faults. -/
def emptyUsageDb : UsageDb := ⟨[], false, false, false⟩

/-! ## Upstream client (generateGeminiReply in lib/geminiClient.ts) -/

/-- One part of a Gemini candidate's content. -/
structure GeminiPart where
  text : Option String
deriving Repr, DecidableEq

/-- The content of a Gemini candidate. -/
structure GeminiContent where
  parts : List GeminiPart
deriving Repr, DecidableEq

/-- One candidate of a Gemini response payload. -/
structure GeminiCandidate where
  content : Option GeminiContent
deriving Repr, DecidableEq

/-- A parsed Gemini response payload as typed in geminiClient.ts. -/
structure GeminiPayload where
  candidates : List GeminiCandidate
  totalTokenCount : Option Nat
deriving Repr, DecidableEq

/-- The GeminiResponse returned by generateGeminiReply. -/
structure GeminiResponse where
  text : String
  totalTokens : Option Nat
deriving Repr, DecidableEq

/-- The raw candidate text the client extracts before trimming:
`payload.candidates?.[0]?.content?.parts?.[0]?.text`. -/
def rawCandidateText (p : GeminiPayload) : Option String :=
  ((p.candidates.head?.bind (fun c => c.content)).bind
    (fun c => c.parts.head?)).bind (fun part => part.text)

/-- The text field generateGeminiReply returns on a successful response:
the raw candidate text trimmed, or "" when any link of the optional chain
is missing (`?.text?.trim() ?? ""`). -/
def extractGeminiText (p : GeminiPayload) : String :=
  ((rawCandidateText p).map jsTrim).getD ""

/-- Model of the successful branch of generateGeminiReply: the extracted
text together with `payload.usageMetadata?.totalTokenCount`. -/
def geminiReplyOfPayload (p : GeminiPayload) : GeminiResponse :=
  ⟨extractGeminiText p, p.totalTokenCount⟩

/-! ## The analyze route (POST handler of route.ts) -/

/-- A chat message of the request body. -/
structure ChatMessage where
  author : String
  text : String
deriving Repr, DecidableEq

/-- The AnalyzeRequestBody of route.ts. `length` is optional. -/
structure AnalyzeRequestBody where
  messages : List ChatMessage
  tone : String
  length : Option String
deriving Repr, DecidableEq

/-- MAX_MESSAGES constant of route.ts. -/
def MAX_MESSAGES : Nat := 30

/-- JavaScript `String.prototype.split(" ")` on the character list:
every single space is a separator, adjacent separators produce empty
fields, and the result is never the empty list. -/
def splitOnSpaceAux : List Char → List Char → List String
  | [], acc => [String.mk acc.reverse]
  | c :: rest, acc =>
    if c = ' ' then String.mk acc.reverse :: splitOnSpaceAux rest []
    else splitOnSpaceAux rest (c :: acc)

/-- Model of `authHeader.split(" ")`. -/
def jsSplitOnSpace (s : String) : List String := splitOnSpaceAux s.data []

/-- Model of `parseBearerToken`: split the header on spaces; the scheme
must be exactly "Bearer" and a non-empty token must follow. A missing or
empty header is falsy in the source and yields null. -/
def parseBearerToken (authHeader : Option String) : Option String :=
  match authHeader with
  | none => none
  | some h =>
    match jsSplitOnSpace h with
    | scheme :: token :: _ =>
      if scheme = "Bearer" ∧ token ≠ "" then some token else none
    | _ => none

/-- Model of `validateRequest`: returns the first error message, or none
when the body passes. The typeof checks of the source are discharged by
the typed model. -/
def validateRequest (body : AnalyzeRequestBody) : Option String :=
  if body.messages.length < 1 then
    some "messages must be a non-empty array"
  else if MAX_MESSAGES < body.messages.length then
    some "messages cannot exceed 30 items"
  else if jsTrim body.tone = "" then
    some "tone must be a valid string"
  else
    match body.messages.find? (fun m => sanitizeText m.text == "") with
    | some _ => some "message text cannot be empty"
    | none => none

/-- Array.prototype.join("\n") on the prompt line array. -/
def joinLines : List String → String
  | [] => ""
  | [x] => x
  | x :: xs => x ++ "\n" ++ joinLines xs

/-- One chat-context line of the prompt:
`- ${sanitizeText(message.author || "Unknown")}: ${sanitizeText(message.text)}`. -/
def messageLine (m : ChatMessage) : String :=
  "- " ++ sanitizeText (if m.author = "" then "Unknown" else m.author) ++ ": " ++
    sanitizeText m.text

/-- The fixed instruction preamble lines of buildPrompt. -/
def promptPreamble : List String :=
  ["You are an AI assistant helping a human chat operator draft ONE reply.",
   "Use the following rules:",
   "- Respect the requested tone and length.",
   "- Do not escalate the tone beyond the user intent.",
   "- Ask at most one question.",
   "- Return only the reply content, no extra commentary."]

/-- Model of `buildPrompt`: the fixed preamble, the tone line, the
length hint (empty string when no usable length was supplied), the chat
context header and the pre-joined message block, with falsy (empty)
entries dropped by `.filter(Boolean)` and the rest joined with
newlines. -/
def buildPrompt (messages : List ChatMessage) (tone : String)
    (len : Option String) : String :=
  let sanitizedMessages := joinLines (messages.map messageLine)
  let lengthHint :=
    match len with
    | some l => if jsTrim l ≠ "" then "Preferred length: " ++ jsTrim l ++ "." else ""
    | none => ""
  joinLines ((promptPreamble ++
    ["Tone: " ++ sanitizeText tone ++ ".",
     lengthHint,
     "Chat context (most recent last):",
     sanitizedMessages]).filter (fun s => s != ""))

/-- The responses the POST handler can produce: `errorResponse(status,
code, message)` bodies, the 429 body with its Retry-After header, and
the success body `{reply}`. -/
inductive ApiResponse where
  | errorResp (status : Nat) (code : String) (message : String)
  | rateLimited (retryAfterSeconds : Int)
  | okResp (reply : String)
deriving Repr, DecidableEq

/-- Math.ceil(x / 1000) on integer milliseconds. -/
def jsCeilDivThousand (x : Int) : Int := -((-x).fdiv 1000)

/-- Model of the POST handler. `body = none` is a JSON parse failure;
`upstream` is the single generateGeminiReply call on the built prompt,
with `Except.error` standing for any throw (timeout, non-success status,
missing key); the returned UsageDb is the usage store after the request.
Time and usage date are passed explicitly. -/
def POST (body : Option AnalyzeRequestBody) (authHeader : Option String)
    (adb : AuthDb) (rateClient : Option RateClient) (buckets : MemBuckets)
    (upstream : String → Except Unit GeminiResponse) (udb : UsageDb)
    (now : Nat) (usageDate : String) : ApiResponse × UsageDb :=
  match body with
  | none => (.errorResp 400 "invalid_json" "Request body must be valid JSON", udb)
  | some b =>
    match validateRequest b with
    | some msg => (.errorResp 400 "invalid_request" msg, udb)
    | none =>
      match parseBearerToken authHeader with
      | none => (.errorResp 401 "unauthorized" "Missing authorization token", udb)
      | some token =>
        match authenticateRequest adb token with
        | .error e =>
          if e = "unauthorized" then
            (.errorResp 401 "unauthorized" "Invalid session token", udb)
          else (.errorResp 403 "forbidden" "Access denied", udb)
        | .ok ctx =>
          let rl := rateLimitUser rateClient ctx.userId 30 now buckets
          if rl.1.allowed = false then
            (.rateLimited (jsCeilDivThousand ((rl.1.resetAt : Int) - (now : Int))),
              udb)
          else
            match upstream (buildPrompt b.messages b.tone b.length) with
            | .error _ =>
              (.errorResp 502 "ai_error"
                "The AI service is unavailable. Please try again later.", udb)
            | .ok g =>
              if g.text = "" then
                (.errorResp 502 "empty_response"
                  "The AI service returned an empty response.", udb)
              else
                (.okResp g.text,
                  logUsage udb ctx.userId ctx.teamId g.totalTokens usageDate)

/-- Prompt shape exactly as the specification words it: the fixed
preamble lines, then the Tone line, an optional Preferred-length line
present only when a non-empty length was supplied, the chat-context
header, then one line per message, joined with newlines with blank
optional lines omitted entirely. Spec-side definition for the C8
comparison with the source's buildPrompt. -/
def buildPromptSpec (messages : List ChatMessage) (tone : String)
    (len : Option String) : String :=
  joinLines
    (promptPreamble ++
     ["Tone: " ++ sanitizeText tone ++ "."] ++
     (match len with
      | some l =>
        if jsTrim l ≠ "" then ["Preferred length: " ++ jsTrim l ++ "."] else []
      | none => []) ++
     ["Chat context (most recent last):"] ++
     messages.map messageLine)

/-! ### Step lemmas for the store-backed path of the rate limiter -/

theorem rateLimitUser_noRow (c : RateClient) (u : String) (limit : Int)
    (now : Nat) (b : MemBuckets)
    (hs : c.selectFails = false)
    (hr : c.rows u (now / WINDOW_MS * WINDOW_MS) = none)
    (hi : c.insertFails = false) :
    rateLimitUser (some c) u limit now b =
      (⟨true, limit - 1, now / WINDOW_MS * WINDOW_MS + WINDOW_MS⟩,
        some { c with rows := setRow c.rows u (now / WINDOW_MS * WINDOW_MS) 1 },
        b) := by
  simp [rateLimitUser, hs, hr, hi]

theorem rateLimitUser_row_allow (c : RateClient) (u : String) (limit : Int)
    (now : Nat) (b : MemBuckets) (k : Nat)
    (hs : c.selectFails = false)
    (hr : c.rows u (now / WINDOW_MS * WINDOW_MS) = some k)
    (hk : (k : Int) < limit)
    (hu : c.updateFails = false) :
    rateLimitUser (some c) u limit now b =
      (⟨true, limit - (k + 1), now / WINDOW_MS * WINDOW_MS + WINDOW_MS⟩,
        some { c with rows := setRow c.rows u (now / WINDOW_MS * WINDOW_MS) (k + 1) },
        b) := by
  simp [rateLimitUser, hs, hr, hu, not_le.mpr hk]

theorem rateLimitUser_row_deny (c : RateClient) (u : String) (limit : Int)
    (now : Nat) (b : MemBuckets) (k : Nat)
    (hs : c.selectFails = false)
    (hr : c.rows u (now / WINDOW_MS * WINDOW_MS) = some k)
    (hk : limit ≤ (k : Int)) :
    rateLimitUser (some c) u limit now b =
      (⟨false, 0, now / WINDOW_MS * WINDOW_MS + WINDOW_MS⟩, some c, b) := by
  simp [rateLimitUser, hs, hr, hk]

/-- C4: with limit 3 and a single subject, on the store-backed path the
first three calls within one window return allowed with remaining 2, 1, 0;
the fourth returns denied with remaining 0 and resetAt the window end;
and a call made at or after resetAt is allowed again with a fresh window. -/
theorem c4_rate_limit_three_then_deny (u : String) (b : MemBuckets)
    (t1 t2 t3 t4 t5 : Nat)
    (h2 : t2 / WINDOW_MS = t1 / WINDOW_MS)
    (h3 : t3 / WINDOW_MS = t1 / WINDOW_MS)
    (h4 : t4 / WINDOW_MS = t1 / WINDOW_MS)
    (h5 : t1 / WINDOW_MS * WINDOW_MS + WINDOW_MS ≤ t5) :
    runCalls (some freshClient) u 3 b [t1, t2, t3, t4, t5] =
      [⟨true, 2, t1 / WINDOW_MS * WINDOW_MS + WINDOW_MS⟩,
       ⟨true, 1, t1 / WINDOW_MS * WINDOW_MS + WINDOW_MS⟩,
       ⟨true, 0, t1 / WINDOW_MS * WINDOW_MS + WINDOW_MS⟩,
       ⟨false, 0, t1 / WINDOW_MS * WINDOW_MS + WINDOW_MS⟩,
       ⟨true, 2, t5 / WINDOW_MS * WINDOW_MS + WINDOW_MS⟩] := by
  have h2w : t2 / WINDOW_MS * WINDOW_MS = t1 / WINDOW_MS * WINDOW_MS := by rw [h2]
  have h3w : t3 / WINDOW_MS * WINDOW_MS = t1 / WINDOW_MS * WINDOW_MS := by rw [h3]
  have h4w : t4 / WINDOW_MS * WINDOW_MS = t1 / WINDOW_MS * WINDOW_MS := by rw [h4]
  have hdiv : t1 / WINDOW_MS + 1 ≤ t5 / WINDOW_MS := by
    have h6 := Nat.div_le_div_right (c := WINDOW_MS) h5
    rwa [Nat.add_div_right _ (by norm_num [WINDOW_MS]),
      Nat.mul_div_cancel _ (by norm_num [WINDOW_MS])] at h6
  have hlt : t1 / WINDOW_MS * WINDOW_MS < t5 / WINDOW_MS * WINDOW_MS := by
    unfold WINDOW_MS at hdiv ⊢
    omega
  have e1 := rateLimitUser_noRow freshClient u 3 t1 b rfl rfl rfl
  set c1 : RateClient :=
    { freshClient with
      rows := setRow freshClient.rows u (t1 / WINDOW_MS * WINDOW_MS) 1 } with hc1
  have hr2 : c1.rows u (t2 / WINDOW_MS * WINDOW_MS) = some 1 := by
    rw [h2w]
    simp [hc1, setRow]
  have e2 := rateLimitUser_row_allow c1 u 3 t2 b 1 rfl hr2 (by norm_num) rfl
  rw [h2w] at e2
  set c2 : RateClient :=
    { c1 with rows := setRow c1.rows u (t1 / WINDOW_MS * WINDOW_MS) 2 } with hc2
  have hr3 : c2.rows u (t3 / WINDOW_MS * WINDOW_MS) = some 2 := by
    rw [h3w]
    simp [hc2, setRow]
  have e3 := rateLimitUser_row_allow c2 u 3 t3 b 2 rfl hr3 (by norm_num) rfl
  rw [h3w] at e3
  set c3 : RateClient :=
    { c2 with rows := setRow c2.rows u (t1 / WINDOW_MS * WINDOW_MS) 3 } with hc3
  have hr4 : c3.rows u (t4 / WINDOW_MS * WINDOW_MS) = some 3 := by
    rw [h4w]
    simp [hc3, setRow]
  have e4 := rateLimitUser_row_deny c3 u 3 t4 b 3 rfl hr4 (by norm_num)
  rw [h4w] at e4
  have hr5 : c3.rows u (t5 / WINDOW_MS * WINDOW_MS) = none := by
    simp [hc3, hc2, hc1, setRow, freshClient, hlt.ne']
  have e5 := rateLimitUser_noRow c3 u 3 t5 b rfl hr5 rfl
  simp only [runCalls, e1, e2, e3, e4, e5]
  norm_num

/-- C4 witness: concrete five-call run with limit 3, times 0, 1, 2, 3 in
one window and 60000 starting the next one. -/
theorem c4_rate_limit_three_then_deny_witness :
    1 / WINDOW_MS = 0 / WINDOW_MS ∧
    2 / WINDOW_MS = 0 / WINDOW_MS ∧
    3 / WINDOW_MS = 0 / WINDOW_MS ∧
    0 / WINDOW_MS * WINDOW_MS + WINDOW_MS ≤ 60000 ∧
    runCalls (some freshClient) "u" 3 emptyBuckets [0, 1, 2, 3, 60000] =
      [⟨true, 2, 0 / WINDOW_MS * WINDOW_MS + WINDOW_MS⟩,
       ⟨true, 1, 0 / WINDOW_MS * WINDOW_MS + WINDOW_MS⟩,
       ⟨true, 0, 0 / WINDOW_MS * WINDOW_MS + WINDOW_MS⟩,
       ⟨false, 0, 0 / WINDOW_MS * WINDOW_MS + WINDOW_MS⟩,
       ⟨true, 2, 60000 / WINDOW_MS * WINDOW_MS + WINDOW_MS⟩] :=
  ⟨by decide, by decide, by decide, by decide,
    c4_rate_limit_three_then_deny "u" emptyBuckets 0 1 2 3 60000
      (by decide) (by decide) (by decide) (by decide)⟩

/-- C3 counterexample: one call at time 30000 on a fresh state. The
store-backed path returns resetAt 60000 (the fixed-window end) while the
process-local fallback returns resetAt 90000 (anchored at the call), so
the two paths do not agree on the resetAt they return. -/
theorem c3_reset_disagreement :
    (rateLimitUser (some freshClient) "u" 3 30000 emptyBuckets).1.resetAt = 60000 ∧
    (rateLimitUser none "u" 3 30000 emptyBuckets).1.resetAt = 90000 := by
  decide

/-- C3 (amended): only the store-backed path keys the window by
floor(now / windowMs) * windowMs — its resetAt is that window's end
whatever branch it takes when no store operation fails. The
process-local fallback instead anchors a fresh bucket at the call time
(resetAt = now + windowMs), so on fresh state the two paths return the
same resetAt exactly when now is a multiple of windowMs. -/
theorem c3_window_keying (c : RateClient) (u : String) (limit : Int)
    (now : Nat) (b : MemBuckets)
    (hs : c.selectFails = false) (hi : c.insertFails = false)
    (hu : c.updateFails = false)
    (hb : b (getBucketKey u) = none) :
    (rateLimitUser (some c) u limit now b).1.resetAt =
      now / WINDOW_MS * WINDOW_MS + WINDOW_MS ∧
    (checkInMemoryLimit b u limit now).1.resetAt = now + WINDOW_MS ∧
    ((rateLimitUser (some c) u limit now b).1.resetAt =
        (rateLimitUser none u limit now b).1.resetAt ↔ now % WINDOW_MS = 0) := by
  have hmem : (checkInMemoryLimit b u limit now).1.resetAt = now + WINDOW_MS := by
    simp [checkInMemoryLimit, hb]
  have hstore : (rateLimitUser (some c) u limit now b).1.resetAt =
      now / WINDOW_MS * WINDOW_MS + WINDOW_MS := by
    rcases hr : c.rows u (now / WINDOW_MS * WINDOW_MS) with _ | k
    · rw [rateLimitUser_noRow c u limit now b hs hr hi]
    · by_cases hk : limit ≤ (k : Int)
      · rw [rateLimitUser_row_deny c u limit now b k hs hr hk]
      · rw [rateLimitUser_row_allow c u limit now b k hs hr (not_le.mp hk) hu]
  have hnone : (rateLimitUser none u limit now b).1.resetAt = now + WINDOW_MS := by
    simpa [rateLimitUser] using hmem
  refine ⟨hstore, hmem, ?_⟩
  rw [hstore, hnone]
  unfold WINDOW_MS
  omega

/-- C3 amended witness at now = 30000 on fresh state. -/
theorem c3_window_keying_witness :
    (rateLimitUser (some freshClient) "u" 3 30000 emptyBuckets).1.resetAt =
      30000 / WINDOW_MS * WINDOW_MS + WINDOW_MS ∧
    (checkInMemoryLimit emptyBuckets "u" 3 30000).1.resetAt = 30000 + WINDOW_MS ∧
    ((rateLimitUser (some freshClient) "u" 3 30000 emptyBuckets).1.resetAt =
        (rateLimitUser none "u" 3 30000 emptyBuckets).1.resetAt ↔
      30000 % WINDOW_MS = 0) :=
  c3_window_keying freshClient "u" 3 30000 emptyBuckets rfl rfl rfl rfl

/-- C5: when a store round-trip fails at any step — select, insert (no
row existed), or update (a row with count below the limit existed) — the
rate limiter still returns a decision, and it is exactly the one the
process-local fallback produces, with the fallback's bucket update. -/
theorem c5_store_error_falls_back (c : RateClient) (u : String) (limit : Int)
    (now : Nat) (b : MemBuckets)
    (h : c.selectFails = true ∨
      (c.rows u (now / WINDOW_MS * WINDOW_MS) = none ∧ c.insertFails = true) ∨
      (∃ k, c.rows u (now / WINDOW_MS * WINDOW_MS) = some k ∧
        (k : Int) < limit ∧ c.updateFails = true)) :
    (rateLimitUser (some c) u limit now b).1 =
      (checkInMemoryLimit b u limit now).1 ∧
    (rateLimitUser (some c) u limit now b).2.2 =
      (checkInMemoryLimit b u limit now).2 := by
  by_cases hsel : c.selectFails = true
  · constructor <;> simp [rateLimitUser, hsel]
  · replace hsel : c.selectFails = false := by
      cases hv : c.selectFails
      · rfl
      · exact absurd hv hsel
    rcases h with h1 | ⟨hrow, hins⟩ | ⟨k, hrow, hk, hupd⟩
    · rw [hsel] at h1
      exact absurd h1 (by simp)
    · constructor <;> simp [rateLimitUser, hsel, hrow, hins]
    · constructor <;> simp [rateLimitUser, hsel, hrow, hupd, not_le.mpr hk]

/-- C5 witness: a client whose select fails, on fresh state. -/
theorem c5_store_error_falls_back_witness :
    (rateLimitUser (some { freshClient with selectFails := true })
        "u" 3 100 emptyBuckets).1 =
      (checkInMemoryLimit emptyBuckets "u" 3 100).1 ∧
    (rateLimitUser (some { freshClient with selectFails := true })
        "u" 3 100 emptyBuckets).2.2 =
      (checkInMemoryLimit emptyBuckets "u" 3 100).2 :=
  c5_store_error_falls_back _ "u" 3 100 emptyBuckets (Or.inl rfl)

/-- C9: for limit ≤ 0, the first call of a window — no bucket in the
fallback map, no row in the store — is still allowed on both paths, with
remaining = limit - 1, which is negative; the limit only takes effect
from the second call of a window onward. -/
theorem c9_negative_remaining (u : String) (limit : Int) (now : Nat)
    (b : MemBuckets) (c : RateClient)
    (hmem : b (getBucketKey u) = none)
    (hs : c.selectFails = false)
    (hrow : c.rows u (now / WINDOW_MS * WINDOW_MS) = none)
    (hi : c.insertFails = false)
    (hneg : limit ≤ 0) :
    (checkInMemoryLimit b u limit now).1 = ⟨true, limit - 1, now + WINDOW_MS⟩ ∧
    (rateLimitUser (some c) u limit now b).1 =
      ⟨true, limit - 1, now / WINDOW_MS * WINDOW_MS + WINDOW_MS⟩ ∧
    limit - 1 < 0 := by
  refine ⟨by simp [checkInMemoryLimit, hmem], ?_, by omega⟩
  rw [rateLimitUser_noRow c u limit now b hs hrow hi]

/-- C9 witness: limit = 0 on fresh state at time 5. -/
theorem c9_negative_remaining_witness :
    (checkInMemoryLimit emptyBuckets "u" 0 5).1 = ⟨true, -1, 5 + WINDOW_MS⟩ ∧
    (rateLimitUser (some freshClient) "u" 0 5 emptyBuckets).1 =
      ⟨true, -1, 5 / WINDOW_MS * WINDOW_MS + WINDOW_MS⟩ ∧
    (0 : Int) - 1 < 0 := by
  have h := c9_negative_remaining "u" 0 5 emptyBuckets freshClient rfl rfl rfl rfl
    (by norm_num)
  simpa using h

/-! ### Evaluation lemmas for the subscription checker -/

theorem ensureSubscriptionAndSeat_subFound (db : Db) (userId : String)
    (tm : TeamMember) (team : Team) (sub : Subscription)
    (hm : db.team_members.filter
      (fun r => r.user_id == userId && r.seat_active) = [tm])
    (ht : findTeamById db tm.team_id = some team)
    (hs : db.subscriptions.filter
      (fun s => s.team_id == team.id && s.status == "active") = [sub]) :
    ensureSubscriptionAndSeat db userId =
      if sub.seats_allowed ≤ ((db.team_members.filter
          (fun r => r.team_id == team.id && r.seat_active)).length : Int) then
        .error "seat_limit_reached"
      else
        .ok ⟨team, tm, sub, (db.team_members.filter
          (fun r => r.team_id == team.id && r.seat_active)).length⟩ := by
  simp only [ensureSubscriptionAndSeat, hm, ht, hs, maybeSingle]

theorem ensureSubscriptionAndSeat_noSub (db : Db) (userId : String)
    (tm : TeamMember) (team : Team)
    (hm : db.team_members.filter
      (fun r => r.user_id == userId && r.seat_active) = [tm])
    (ht : findTeamById db tm.team_id = some team)
    (hs : db.subscriptions.filter
      (fun s => s.team_id == team.id && s.status == "active") = []) :
    ensureSubscriptionAndSeat db userId = .error "subscription_inactive" := by
  simp only [ensureSubscriptionAndSeat, hm, ht, hs, maybeSingle]

/-- C1 counterexample: a caller with an active seat on team t1 whose only
subscription has status "trialing" and five allowed seats. Resolution via
ensureSubscriptionAndSeat fails with subscription_inactive; flipping the
status to "active" (everything else unchanged) makes it succeed, so the
trialing status is what is rejected. -/
theorem c1_trialing_counterexample :
    ensureSubscriptionAndSeat trialDb "u1" = .error "subscription_inactive" ∧
    ensureSubscriptionAndSeat
      { trialDb with subscriptions := [⟨"s1", "t1", "active", 5⟩] } "u1" =
      .ok ⟨⟨"t1", "Team One", "u1"⟩, ⟨"m1", "t1", "u1", "admin", true⟩,
        ⟨"s1", "t1", "active", 5⟩, 1⟩ :=
  ⟨rfl, rfl⟩

/-- C1 (amended): the two entitlement implementations accept different
status sets. ensureSubscriptionAndSeat looks the subscription up with
status "active" only, so its resolution succeeds exactly when the team's
subscription status is "active" — "trialing" fails with
subscription_inactive like "canceled" does. Only the analyze route's
authenticateRequest accepts exactly the statuses {active, trialing}. -/
theorem c1_subscription_status_sets (db : Db) (userId : String)
    (tm : TeamMember) (team : Team) (sub : Subscription)
    (hm : db.team_members.filter
      (fun r => r.user_id == userId && r.seat_active) = [tm])
    (ht : findTeamById db tm.team_id = some team)
    (hsubs : db.subscriptions = [sub])
    (htid : sub.team_id = team.id)
    (hseats : ((db.team_members.filter
      (fun r => r.team_id == team.id && r.seat_active)).length : Int) <
        sub.seats_allowed)
    (adb : AuthDb) (token userId2 : String) (tma : TeamMemberAlt)
    (seat : Seat) (suba : Subscription)
    (hg : adb.getUser token = some userId2)
    (hma : adb.team_members.filter
      (fun r => r.user_id == userId2 && r.status == "active") = [tma])
    (hne : tma.team_id ≠ "")
    (hsubsa : adb.subscriptions = [suba])
    (htida : suba.team_id = tma.team_id)
    (hseat : adb.seats.filter
      (fun s => s.team_id == tma.team_id && s.user_id == userId2 &&
        s.status == "active") = [seat]) :
    ((∃ r, ensureSubscriptionAndSeat db userId = .ok r) ↔
      sub.status = "active") ∧
    (authenticateRequest adb token = .ok ⟨userId2, tma.team_id⟩ ↔
      (suba.status = "active" ∨ suba.status = "trialing")) := by
  constructor
  · by_cases hst : sub.status = "active"
    · have hs : db.subscriptions.filter
          (fun s => s.team_id == team.id && s.status == "active") = [sub] := by
        simp [hsubs, htid, hst]
      rw [ensureSubscriptionAndSeat_subFound db userId tm team sub hm ht hs,
        if_neg (not_le.mpr hseats)]
      simp [hst]
    · have hs : db.subscriptions.filter
          (fun s => s.team_id == team.id && s.status == "active") = [] := by
        simp [hsubs, hst]
      rw [ensureSubscriptionAndSeat_noSub db userId tm team hm ht hs]
      simp [hst]
  · by_cases hst : suba.status = "active" ∨ suba.status = "trialing"
    · have hsa : adb.subscriptions.filter
          (fun s => s.team_id == tma.team_id &&
            (s.status == "active" || s.status == "trialing")) = [suba] := by
        rcases hst with h | h <;> simp [hsubsa, htida, h]
      have hne2 : (tma.team_id == "") = false := beq_eq_false_iff_ne.mpr hne
      simp [authenticateRequest, hg, hma, maybeSingle, hne2, hsa, hseat, hst]
    · have hsa : adb.subscriptions.filter
          (fun s => s.team_id == tma.team_id &&
            (s.status == "active" || s.status == "trialing")) = [] := by
        push_neg at hst
        simp [hsubsa, hst.1, hst.2]
      have hne2 : (tma.team_id == "") = false := beq_eq_false_iff_ne.mpr hne
      simp [authenticateRequest, hg, hma, maybeSingle, hne2, hsa, hst]

/-- C1 amended witness: the trialing store of the counterexample, for
both implementations. -/
theorem c1_subscription_status_sets_witness :
    ((∃ r, ensureSubscriptionAndSeat trialDb "u1" = .ok r) ↔
      ("trialing" : String) = "active") ∧
    (authenticateRequest trialAuthDb "tok" = .ok ⟨"u1", "t1"⟩ ↔
      (("trialing" : String) = "active" ∨
        ("trialing" : String) = "trialing")) :=
  c1_subscription_status_sets trialDb "u1"
    ⟨"m1", "t1", "u1", "admin", true⟩ ⟨"t1", "Team One", "u1"⟩
    ⟨"s1", "t1", "trialing", 5⟩ rfl rfl rfl rfl (by decide)
    trialAuthDb "tok" "u1" ⟨"t1", "u1", "active", true⟩
    ⟨"st1", "t1", "u1", "active", true⟩ ⟨"s1", "t1", "trialing", 5⟩
    rfl rfl (by decide) rfl rfl rfl

/-- C6: when the team's subscription allows N seats and the team has
exactly N active memberships, ensureSubscriptionAndSeat fails with
seat_limit_reached; with N-1 active memberships it succeeds — the deny
condition is seats-used ≥ seats_allowed. -/
theorem c6_seat_limit_boundary (db1 db2 : Db) (userId1 userId2 : String)
    (tm1 tm2 : TeamMember) (team1 team2 : Team) (sub1 sub2 : Subscription)
    (hm1 : db1.team_members.filter
      (fun r => r.user_id == userId1 && r.seat_active) = [tm1])
    (ht1 : findTeamById db1 tm1.team_id = some team1)
    (hs1 : db1.subscriptions.filter
      (fun s => s.team_id == team1.id && s.status == "active") = [sub1])
    (hc1 : ((db1.team_members.filter
      (fun r => r.team_id == team1.id && r.seat_active)).length : Int) =
        sub1.seats_allowed)
    (hm2 : db2.team_members.filter
      (fun r => r.user_id == userId2 && r.seat_active) = [tm2])
    (ht2 : findTeamById db2 tm2.team_id = some team2)
    (hs2 : db2.subscriptions.filter
      (fun s => s.team_id == team2.id && s.status == "active") = [sub2])
    (hc2 : ((db2.team_members.filter
      (fun r => r.team_id == team2.id && r.seat_active)).length : Int) =
        sub2.seats_allowed - 1) :
    ensureSubscriptionAndSeat db1 userId1 = .error "seat_limit_reached" ∧
    ensureSubscriptionAndSeat db2 userId2 =
      .ok ⟨team2, tm2, sub2, (db2.team_members.filter
        (fun r => r.team_id == team2.id && r.seat_active)).length⟩ := by
  constructor
  · rw [ensureSubscriptionAndSeat_subFound db1 userId1 tm1 team1 sub1 hm1 ht1 hs1,
      if_pos (le_of_eq hc1.symm)]
  · rw [ensureSubscriptionAndSeat_subFound db2 userId2 tm2 team2 sub2 hm2 ht2 hs2,
      if_neg (by omega)]

/-- C6 witness: seats_allowed = 1 with one active member denies;
seats_allowed = 2 with one active member admits. -/
theorem c6_seat_limit_boundary_witness :
    ensureSubscriptionAndSeat fullDb "u1" = .error "seat_limit_reached" ∧
    ensureSubscriptionAndSeat
      { fullDb with subscriptions := [⟨"s1", "t1", "active", 2⟩] } "u1" =
      .ok ⟨⟨"t1", "Team One", "u1"⟩, ⟨"m1", "t1", "u1", "admin", true⟩,
        ⟨"s1", "t1", "active", 2⟩, 1⟩ :=
  c6_seat_limit_boundary fullDb
    { fullDb with subscriptions := [⟨"s1", "t1", "active", 2⟩] } "u1" "u1"
    ⟨"m1", "t1", "u1", "admin", true⟩ ⟨"m1", "t1", "u1", "admin", true⟩
    ⟨"t1", "Team One", "u1"⟩ ⟨"t1", "Team One", "u1"⟩
    ⟨"s1", "t1", "active", 1⟩ ⟨"s1", "t1", "active", 2⟩
    rfl rfl rfl (by decide) rfl rfl rfl (by decide)

/-- C2 counterexample: calling logUsage twice with 10 tokens produces
exactly the same store as calling it once with 20 tokens — a single
usage_metrics row with tokens = 20 and nothing else. The stored record
has no requests_count column and the operation maintains no request
counter anywhere, so no stored aggregate with requests_count = 2 exists
(it would have to distinguish the two runs, which produce equal stores). -/
theorem c2_no_request_counter :
    logUsage (logUsage emptyUsageDb "u1" "t1" (some 10) "2026-10-11")
        "u1" "t1" (some 10) "2026-10-11" =
      logUsage emptyUsageDb "u1" "t1" (some 20) "2026-10-11" ∧
    (logUsage (logUsage emptyUsageDb "u1" "t1" (some 10) "2026-10-11")
        "u1" "t1" (some 10) "2026-10-11").rows =
      [⟨"2026-10-11", "u1", "t1", some 20⟩] :=
  ⟨rfl, rfl⟩

theorem logUsage_map_untouched (date userId teamId : String) (g : UsageRow → UsageRow)
    (l : List UsageRow)
    (hl : ∀ r ∈ l, usageMatches date userId teamId r = false) :
    l.map (fun r => if usageMatches date userId teamId r then g r else r) = l := by
  induction l with
  | nil => rfl
  | cons a as ih =>
    have ha : usageMatches date userId teamId a = false := hl a (by simp)
    simp only [List.map_cons, ha, Bool.false_eq_true, if_false, List.cons.injEq,
      true_and]
    exact ih (fun r hr => hl r (by simp [hr]))

/-- C2 (amended): calling the usage-recording operation twice with k > 0
tokens (no matching row beforehand, no faults) leaves exactly one
matching usage_metrics row, holding tokens = k + k; the code records no
requests_count. The operation is a total function and swallows every
store fault: a failing select, a select returning an error because more
than one row matches, a failing insert when no row exists, and a failing
update when a row exists each return normally with the store
unchanged. -/
theorem c2_usage_double_increment (db : UsageDb) (userId teamId date : String)
    (k : Nat) (hk : k ≠ 0)
    (hnone : ∀ r ∈ db.rows, usageMatches date userId teamId r = false)
    (hs : db.selectFails = false) (hi : db.insertFails = false)
    (hu : db.updateFails = false) :
    (logUsage (logUsage db userId teamId (some k) date)
        userId teamId (some k) date).rows.filter
      (usageMatches date userId teamId) =
      [⟨date, userId, teamId, some ((k : Int) + (k : Int))⟩] ∧
    (∀ faultyDb : UsageDb,
      (faultyDb.selectFails = true ∨
        (∃ r1 r2 rest, faultyDb.rows.filter (usageMatches date userId teamId) =
          r1 :: r2 :: rest) ∨
        (faultyDb.rows.filter (usageMatches date userId teamId) = [] ∧
          faultyDb.insertFails = true) ∨
        (∃ r, faultyDb.rows.filter (usageMatches date userId teamId) = [r] ∧
          faultyDb.updateFails = true)) →
      logUsage faultyDb userId teamId (some k) date = faultyDb) := by
  have hfilter : db.rows.filter (usageMatches date userId teamId) = [] := by
    simp only [List.filter_eq_nil_iff]
    intro r hr
    simp [hnone r hr]
  constructor
  · have hrow : usageMatches date userId teamId
        ⟨date, userId, teamId, some (k : Int)⟩ = true := by
      simp [usageMatches]
    have e1 : logUsage db userId teamId (some k) date =
        { db with rows := db.rows ++ [⟨date, userId, teamId, some (k : Int)⟩] } := by
      simp [logUsage, hk, hs, hi, hfilter, maybeSingle]
    have e2 : (db.rows ++ [(⟨date, userId, teamId, some (k : Int)⟩ : UsageRow)]).filter
        (usageMatches date userId teamId) =
        [⟨date, userId, teamId, some (k : Int)⟩] := by
      rw [List.filter_append, hfilter]
      simp [hrow]
    rw [e1]
    simp only [logUsage, hk, hs, hu, e2, maybeSingle, if_neg hk, Bool.false_eq_true,
      if_false, Option.getD_some]
    rw [List.map_append, logUsage_map_untouched date userId teamId _ db.rows hnone]
    simp only [List.map_cons, List.map_nil, hrow, if_true, List.filter_append, hfilter]
    simp [usageMatches]
  · intro faultyDb h
    by_cases hsel : faultyDb.selectFails = true
    · simp [logUsage, hk, hsel]
    · replace hsel : faultyDb.selectFails = false := by
        cases hv : faultyDb.selectFails
        · rfl
        · exact absurd hv hsel
      rcases h with h1 | ⟨r1, r2, rest, hfil⟩ | ⟨hfil, hins⟩ | ⟨r, hfil, hupd⟩
      · rw [hsel] at h1
        exact absurd h1 (by simp)
      · simp [logUsage, hk, hsel, hfil, maybeSingle]
      · simp [logUsage, hk, hsel, hfil, maybeSingle, hins]
      · simp [logUsage, hk, hsel, hfil, maybeSingle, hupd]

/-- C2 amended witness: two 10-token calls on the empty store. -/
theorem c2_usage_double_increment_witness :
    (logUsage (logUsage emptyUsageDb "u1" "t1" (some 10) "2026-10-11")
        "u1" "t1" (some 10) "2026-10-11").rows.filter
      (usageMatches "2026-10-11" "u1" "t1") =
      [⟨"2026-10-11", "u1", "t1", some ((10 : Int) + (10 : Int))⟩] ∧
    (∀ faultyDb : UsageDb,
      (faultyDb.selectFails = true ∨
        (∃ r1 r2 rest, faultyDb.rows.filter (usageMatches "2026-10-11" "u1" "t1") =
          r1 :: r2 :: rest) ∨
        (faultyDb.rows.filter (usageMatches "2026-10-11" "u1" "t1") = [] ∧
          faultyDb.insertFails = true) ∨
        (∃ r, faultyDb.rows.filter (usageMatches "2026-10-11" "u1" "t1") = [r] ∧
          faultyDb.updateFails = true)) →
      logUsage faultyDb "u1" "t1" (some 10) "2026-10-11" = faultyDb) :=
  c2_usage_double_increment emptyUsageDb "u1" "t1" "2026-10-11" 10 (by decide)
    (by simp [emptyUsageDb]) rfl rfl rfl

/-- C7: for an admitted request (valid body, bearer token present,
authentication succeeds, rate limit allows) whose upstream call succeeds
with empty extracted text, POST fails with the empty-reply error (502,
code empty_response) and returns the usage store unchanged: no usage is
recorded. -/
theorem c7_empty_reply_records_no_usage (b : AnalyzeRequestBody)
    (authHeader : Option String) (adb : AuthDb)
    (rateClient : Option RateClient) (buckets : MemBuckets)
    (upstream : String → Except Unit GeminiResponse) (udb : UsageDb)
    (now : Nat) (usageDate : String) (token : String) (ctx : AuthContext)
    (tt : Option Nat)
    (hv : validateRequest b = none)
    (ht : parseBearerToken authHeader = some token)
    (ha : authenticateRequest adb token = .ok ctx)
    (hr : (rateLimitUser rateClient ctx.userId 30 now buckets).1.allowed = true)
    (hu : upstream (buildPrompt b.messages b.tone b.length) = .ok ⟨"", tt⟩) :
    POST (some b) authHeader adb rateClient buckets upstream udb now usageDate =
      (.errorResp 502 "empty_response"
        "The AI service returned an empty response.", udb) := by
  simp [POST, hv, ht, ha, hr, hu]

/-- C7 witness: a one-message request against the trialing store with a
fresh rate-limit client and an upstream that returns 42 counted tokens
but empty text. -/
theorem c7_empty_reply_records_no_usage_witness :
    POST (some ⟨[⟨"A", "hello"⟩], "friendly", none⟩)
        (some "Bearer tok") trialAuthDb (some freshClient) emptyBuckets
        (fun _ => .ok ⟨"", some 42⟩) emptyUsageDb 0 "2026-10-11" =
      (.errorResp 502 "empty_response"
        "The AI service returned an empty response.", emptyUsageDb) :=
  c7_empty_reply_records_no_usage ⟨[⟨"A", "hello"⟩], "friendly", none⟩
    (some "Bearer tok") trialAuthDb (some freshClient) emptyBuckets
    (fun _ => .ok ⟨"", some 42⟩) emptyUsageDb 0 "2026-10-11" "tok" ⟨"u1", "t1"⟩
    (some 42) rfl rfl rfl rfl rfl

/-! ### Properties of the trim model -/

theorem dropWhile_head?_false (p : Char → Bool) (l : List Char) (c : Char)
    (h : (l.dropWhile p).head? = some c) : p c = false := by
  induction l with
  | nil => simp at h
  | cons a as ih =>
    rw [List.dropWhile_cons] at h
    by_cases hp : p a = true
    · rw [if_pos hp] at h
      exact ih h
    · rw [if_neg hp] at h
      simp only [List.head?_cons, Option.some.injEq] at h
      rw [← h]
      exact Bool.not_eq_true _ |>.mp hp

theorem getLast?_dropWhile (p : Char → Bool) (l : List Char)
    (h : l.dropWhile p ≠ []) : (l.dropWhile p).getLast? = l.getLast? := by
  induction l with
  | nil => simp at h
  | cons a as ih =>
    rw [List.dropWhile_cons] at h ⊢
    by_cases hp : p a = true
    · rw [if_pos hp] at h ⊢
      rcases as with _ | ⟨b, bs⟩
      · simp at h
      · rw [ih h, List.getLast?_cons_cons]
    · rw [if_neg hp]

theorem jsTrimList_all_ws (l : List Char) (h : ∀ c ∈ l, isJsWs c = true) :
    jsTrimList l = [] := by
  unfold jsTrimList
  rw [List.dropWhile_eq_nil_iff.mpr h]
  simp

theorem jsTrimList_head (l : List Char) (c : Char)
    (h : (jsTrimList l).head? = some c) : isJsWs c = false := by
  unfold jsTrimList at h
  rw [List.head?_reverse] at h
  have hne : List.dropWhile isJsWs ((l.dropWhile isJsWs).reverse) ≠ [] := by
    intro h0
    rw [h0] at h
    simp at h
  rw [getLast?_dropWhile _ _ hne, List.getLast?_reverse] at h
  exact dropWhile_head?_false isJsWs l c h

theorem jsTrimList_getLast (l : List Char) (c : Char)
    (h : (jsTrimList l).getLast? = some c) : isJsWs c = false := by
  unfold jsTrimList at h
  rw [List.getLast?_reverse] at h
  exact dropWhile_head?_false isJsWs _ c h

/-- C10: the upstream client trims the extracted candidate text. When
the raw candidate text is whitespace-only, the returned text is "" and
an admitted POST request with that upstream response fails with the
empty-reply error; and whatever the payload, the returned text never has
a leading or trailing whitespace character. -/
theorem c10_reply_text_trimmed (p : GeminiPayload)
    (b : AnalyzeRequestBody) (authHeader : Option String) (adb : AuthDb)
    (rateClient : Option RateClient) (buckets : MemBuckets) (udb : UsageDb)
    (now : Nat) (usageDate : String) (token : String) (ctx : AuthContext)
    (s : String)
    (hraw : rawCandidateText p = some s)
    (hws : ∀ c ∈ s.data, isJsWs c = true)
    (hv : validateRequest b = none)
    (ht : parseBearerToken authHeader = some token)
    (ha : authenticateRequest adb token = .ok ctx)
    (hr : (rateLimitUser rateClient ctx.userId 30 now buckets).1.allowed = true) :
    extractGeminiText p = "" ∧
    POST (some b) authHeader adb rateClient buckets
        (fun _ => .ok (geminiReplyOfPayload p)) udb now usageDate =
      (.errorResp 502 "empty_response"
        "The AI service returned an empty response.", udb) ∧
    (∀ q : GeminiPayload,
      (∀ c, (extractGeminiText q).data.head? = some c → isJsWs c = false) ∧
      (∀ c, (extractGeminiText q).data.getLast? = some c → isJsWs c = false)) := by
  have hempty : extractGeminiText p = "" := by
    simp only [extractGeminiText, hraw, Option.map_some, Option.getD_some]
    show String.mk (jsTrimList s.data) = ""
    rw [jsTrimList_all_ws s.data hws]
  refine ⟨hempty, ?_, ?_⟩
  · have hg : geminiReplyOfPayload p = ⟨"", p.totalTokenCount⟩ := by
      simp [geminiReplyOfPayload, hempty]
    simp [POST, hv, ht, ha, hr, hg]
  · intro q
    constructor
    · intro c hc
      rcases hq : rawCandidateText q with _ | t
      · rw [extractGeminiText, hq] at hc
        exact Option.noConfusion hc
      · rw [extractGeminiText, hq] at hc
        exact jsTrimList_head t.data c hc
    · intro c hc
      rcases hq : rawCandidateText q with _ | t
      · rw [extractGeminiText, hq] at hc
        exact Option.noConfusion hc
      · rw [extractGeminiText, hq] at hc
        exact jsTrimList_getLast t.data c hc

/-- C10 witness: a payload whose only candidate text is two spaces, fed
to the admitted request of the C7 scenario. -/
theorem c10_reply_text_trimmed_witness :
    extractGeminiText ⟨[⟨some ⟨[⟨some "  "⟩]⟩⟩], some 7⟩ = "" ∧
    POST (some ⟨[⟨"A", "hello"⟩], "friendly", none⟩) (some "Bearer tok")
        trialAuthDb (some freshClient) emptyBuckets
        (fun _ => .ok (geminiReplyOfPayload ⟨[⟨some ⟨[⟨some "  "⟩]⟩⟩], some 7⟩))
        emptyUsageDb 0 "2026-10-11" =
      (.errorResp 502 "empty_response"
        "The AI service returned an empty response.", emptyUsageDb) ∧
    (∀ q : GeminiPayload,
      (∀ c, (extractGeminiText q).data.head? = some c → isJsWs c = false) ∧
      (∀ c, (extractGeminiText q).data.getLast? = some c → isJsWs c = false)) :=
  c10_reply_text_trimmed ⟨[⟨some ⟨[⟨some "  "⟩]⟩⟩], some 7⟩
    ⟨[⟨"A", "hello"⟩], "friendly", none⟩ (some "Bearer tok") trialAuthDb
    (some freshClient) emptyBuckets emptyUsageDb 0 "2026-10-11" "tok"
    ⟨"u1", "t1"⟩ "  " rfl (by decide) rfl rfl rfl rfl

/-! ### Prompt-shape lemmas -/

theorem filter_cons_of_ne (x : String) (xs : List String) (h : x ≠ "") :
    (x :: xs).filter (fun s => s != "") = x :: xs.filter (fun s => s != "") := by
  rw [List.filter_cons, if_pos (by simpa using h)]

theorem filter_cons_of_empty (xs : List String) :
    ("" :: xs).filter (fun s => s != "") = xs.filter (fun s => s != "") := by
  rw [List.filter_cons]
  simp

theorem joinLines_cons_of_ne (x : String) (xs : List String) (h : xs ≠ []) :
    joinLines (x :: xs) = x ++ "\n" ++ joinLines xs := by
  cases xs with
  | nil => exact absurd rfl h
  | cons y ys => rfl

theorem joinLines_concat_join (A L : List String) (h : L ≠ []) :
    joinLines (A ++ [joinLines L]) = joinLines (A ++ L) := by
  induction A with
  | nil =>
    show joinLines [joinLines L] = joinLines L
    rfl
  | cons a as ih =>
    have h1 : as ++ [joinLines L] ≠ [] := by simp
    have h2 : as ++ L ≠ [] := by
      intro h0
      exact h (List.append_eq_nil.mp h0).2
    rw [List.cons_append, joinLines_cons_of_ne a _ h1, ih,
      List.cons_append, joinLines_cons_of_ne a _ h2]

theorem ne_empty_of_ne_length (s : String) (h : s.length ≠ 0) : s ≠ "" := by
  intro h0
  rw [h0] at h
  exact h rfl

theorem messageLine_ne_empty (m : ChatMessage) : messageLine m ≠ "" := by
  apply ne_empty_of_ne_length
  unfold messageLine
  rw [String.length_append, String.length_append, String.length_append]
  have h2 : ("- " : String).length = 2 := rfl
  omega

theorem joinLines_messageLines_ne_empty (m : ChatMessage) (ms : List ChatMessage) :
    joinLines ((m :: ms).map messageLine) ≠ "" := by
  cases ms with
  | nil => exact messageLine_ne_empty m
  | cons m2 ms2 =>
    rw [List.map_cons, joinLines_cons_of_ne _ _ (by simp)]
    apply ne_empty_of_ne_length
    rw [String.length_append, String.length_append]
    have h1 : ("\n" : String).length = 1 := rfl
    omega

theorem toneLine_ne_empty (tone : String) :
    "Tone: " ++ sanitizeText tone ++ "." ≠ "" := by
  apply ne_empty_of_ne_length
  rw [String.length_append, String.length_append]
  have h6 : ("Tone: " : String).length = 6 := rfl
  omega

theorem lengthHint_ne_empty (l : String) :
    "Preferred length: " ++ jsTrim l ++ "." ≠ "" := by
  apply ne_empty_of_ne_length
  rw [String.length_append, String.length_append]
  have h18 : ("Preferred length: " : String).length = 18 := rfl
  omega

theorem c8_core (messages : List ChatMessage) (toneLine hint : String)
    (hintList : List String)
    (htone : toneLine ≠ "")
    (hh : (hint = "" ∧ hintList = []) ∨ (hint ≠ "" ∧ hintList = [hint])) :
    joinLines ((promptPreamble ++
      [toneLine, hint, "Chat context (most recent last):",
       joinLines (messages.map messageLine)]).filter (fun s => s != "")) =
    joinLines (promptPreamble ++ [toneLine] ++ hintList ++
      ["Chat context (most recent last):"] ++ messages.map messageLine) := by
  simp only [promptPreamble, List.cons_append, List.nil_append]
  rw [filter_cons_of_ne _ _ (by decide), filter_cons_of_ne _ _ (by decide),
    filter_cons_of_ne _ _ (by decide), filter_cons_of_ne _ _ (by decide),
    filter_cons_of_ne _ _ (by decide), filter_cons_of_ne _ _ (by decide),
    filter_cons_of_ne _ _ htone]
  rcases hh with ⟨he, hl⟩ | ⟨hne, hl⟩ <;> subst hl
  · subst he
    rw [filter_cons_of_empty, filter_cons_of_ne _ _ (by decide)]
    cases messages with
    | nil => rfl
    | cons m ms =>
      rw [filter_cons_of_ne _ _ (joinLines_messageLines_ne_empty m ms),
        List.filter_nil]
      exact joinLines_concat_join
        (promptPreamble ++ [toneLine, "Chat context (most recent last):"])
        ((m :: ms).map messageLine) (by simp)
  · rw [filter_cons_of_ne _ _ hne, filter_cons_of_ne _ _ (by decide)]
    cases messages with
    | nil => rfl
    | cons m ms =>
      rw [filter_cons_of_ne _ _ (joinLines_messageLines_ne_empty m ms),
        List.filter_nil]
      exact joinLines_concat_join
        (promptPreamble ++ [toneLine, hint, "Chat context (most recent last):"])
        ((m :: ms).map messageLine) (by simp)

/-- C8: for every validated payload, buildPrompt produces exactly the
prompt the specification describes: preamble, Tone line, optional
Preferred-length line only for a non-empty supplied length, chat-context
header, one line per message with the sanitized author defaulting to
"Unknown", joined by newlines with blank optional lines omitted, with
whitespace runs collapsed to single spaces and ends trimmed by
sanitizeText. -/
theorem c8_prompt_shape (messages : List ChatMessage) (tone : String)
    (len : Option String) :
    buildPrompt messages tone len = buildPromptSpec messages tone len := by
  cases len with
  | none =>
    show joinLines ((promptPreamble ++
        ["Tone: " ++ sanitizeText tone ++ ".", "",
         "Chat context (most recent last):",
         joinLines (messages.map messageLine)]).filter (fun s => s != "")) =
      buildPromptSpec messages tone none
    unfold buildPromptSpec
    exact c8_core messages _ "" [] (toneLine_ne_empty tone) (Or.inl ⟨rfl, rfl⟩)
  | some l =>
    by_cases hl : jsTrim l ≠ ""
    · show joinLines ((promptPreamble ++
          ["Tone: " ++ sanitizeText tone ++ ".",
           if jsTrim l ≠ "" then "Preferred length: " ++ jsTrim l ++ "." else "",
           "Chat context (most recent last):",
           joinLines (messages.map messageLine)]).filter (fun s => s != "")) =
        buildPromptSpec messages tone (some l)
      unfold buildPromptSpec
      rw [if_pos hl]
      show joinLines ((promptPreamble ++
          ["Tone: " ++ sanitizeText tone ++ ".",
           "Preferred length: " ++ jsTrim l ++ ".",
           "Chat context (most recent last):",
           joinLines (messages.map messageLine)]).filter (fun s => s != "")) = _
      rw [show (match some l with
        | some l2 =>
          if jsTrim l2 ≠ "" then ["Preferred length: " ++ jsTrim l2 ++ "."] else []
        | none => ([] : List String)) =
          ["Preferred length: " ++ jsTrim l ++ "."] from by simp [hl]]
      exact c8_core messages _ _ _ (toneLine_ne_empty tone)
        (Or.inr ⟨lengthHint_ne_empty l, rfl⟩)
    · show joinLines ((promptPreamble ++
          ["Tone: " ++ sanitizeText tone ++ ".",
           if jsTrim l ≠ "" then "Preferred length: " ++ jsTrim l ++ "." else "",
           "Chat context (most recent last):",
           joinLines (messages.map messageLine)]).filter (fun s => s != "")) =
        buildPromptSpec messages tone (some l)
      unfold buildPromptSpec
      rw [if_neg hl]
      rw [show (match some l with
        | some l2 =>
          if jsTrim l2 ≠ "" then ["Preferred length: " ++ jsTrim l2 ++ "."] else []
        | none => ([] : List String)) = ([] : List String) from by
          simp [not_ne_iff.mp hl]]
      exact c8_core messages _ "" [] (toneLine_ne_empty tone) (Or.inl ⟨rfl, rfl⟩)
